import Mathlib

/-!
Shallow embedding of the knownout evm-wallet-controller package
(src/package/EvmWalletController.ts, src/package/utils/network-utils.ts,
src/package/utils/get-installed-wallets.ts, waiting-ethereum-promise.ts)
together with theorems about its state machine, event emission and
balance-resolution logic.

Modelling conventions:
- JavaScript numbers used as chain ids are modelled by Nat (the state
  slot accountChain stores Int because the code pins -1 for unsupported
  chains); BigNumber balances and wei amounts are modelled by Rat.
- Provider handles and Web3 client handles are opaque and modelled by
  Nat identifiers; only their presence or absence matters to the claims.
- Asynchronous external interactions (provider subscriptions, account
  requests, RPC balance calls, the WalletConnect handshake) are modelled
  by explicit oracle values describing how each awaited call settles.
- Handlers that suspend at an await are split into a Start function
  (everything before the await, returning the snapshot the code takes)
  and a Finish function (everything after the await, applied to the
  possibly changed controller observed on resumption).
- The observable-state container inherited from the external package
  base-controller is modelled by plain record updates: setState merges
  the given fields, setData merges, resetData empties the data slot and
  resetState restores the constructor state except the excluded key.
-/

/-- Network metadata record (src/package/utils/network-utils.ts TNetworkInfo). -/
structure TNetworkInfo where
  currency : String
  rpc : String
deriving DecidableEq, Repr

/-- The two fields of TNetworkInfo, i.e. keyof TNetworkInfo. -/
inductive NetworkField where
  | currency
  | rpc
deriving DecidableEq, Repr

/-- Field access value[key] for a TNetworkInfo record. -/
def fieldValue : NetworkField → TNetworkInfo → String
  | NetworkField.currency, n => n.currency
  | NetworkField.rpc, n => n.rpc

/-- getNetworksValue (src/package/utils/network-utils.ts lines 15-19):
Object.fromEntries(Object.entries(networksList).map(([k, v]) => [k, v[key]])).
The networks table is modelled as an association list with distinct Nat
keys; Object.entries enumerates entries in key order and the projection
keeps every key, mapping each record to the selected field. -/
def getNetworksValue (key : NetworkField) (networksList : List (Nat × TNetworkInfo)) :
    List (Nat × String) :=
  networksList.map (fun e => (e.1, fieldValue key e.2))

/-- defaultNetworksList (src/package/EvmWalletController.ts lines 29-44). -/
def defaultNetworksList : List (Nat × TNetworkInfo) :=
  [ (1, { currency := "ETH", rpc := "https://mainnet.infura.io/v3/9aa3d95b3bc440fa88ea12eaa4456161" }),
    (56, { currency := "BNB", rpc := "https://bsc-dataseed.binance.org/" }),
    (250, { currency := "FTM", rpc := "https://rpc.ankr.com/fantom/" }) ]

/-- C9: for every networks table T, every field f and every key k present in
T, the projection satisfies getNetworksValue(f, T)[k] == T[k][f], and the
projected table has exactly the keys of T. -/
theorem getNetworksValue_projection (f : NetworkField) (T : List (Nat × TNetworkInfo))
    (k : Nat) (v : TNetworkInfo) (h : T.lookup k = some v) :
    (getNetworksValue f T).lookup k = some (fieldValue f v) ∧
      (getNetworksValue f T).map Prod.fst = T.map Prod.fst := by
  constructor
  · induction T with
    | nil => simp [List.lookup] at h
    | cons hd tl ih =>
      simp only [getNetworksValue, List.map, List.lookup] at *
      by_cases hk : k == hd.1
      · simp only [hk, if_pos] at h ⊢
        simp at h
        subst h
        rfl
      · simp only [hk] at h ⊢
        exact ih h
  · simp [getNetworksValue]

/-- Witness for C9 at the default networks table, field currency, key 56. -/
theorem getNetworksValue_projection_witness :
    (getNetworksValue NetworkField.currency defaultNetworksList).lookup 56 =
        some (fieldValue NetworkField.currency { currency := "BNB", rpc := "https://bsc-dataseed.binance.org/" }) ∧
      (getNetworksValue NetworkField.currency defaultNetworksList).map Prod.fst =
        defaultNetworksList.map Prod.fst :=
  getNetworksValue_projection NetworkField.currency defaultNetworksList 56
    { currency := "BNB", rpc := "https://bsc-dataseed.binance.org/" } (by decide)

/-- IEvmWalletState (src/package/EvmWalletController.ts lines 46-70).
Optional fields are Option; balance is a BigNumber modelled by Rat;
accountChain is Int because the code stores -1 for unsupported chains. -/
structure IEvmWalletState where
  connected : Bool
  loading : Bool
  balance : Option Rat
  accountChain : Option Int
  accountChainValid : Option Bool
  balanceUpdating : Option Bool
deriving DecidableEq, Repr

/-- Partial IEvmWalletData (src/package/EvmWalletController.ts lines 72-84).
The web3 and ethereum handles are opaque Nat identifiers. -/
structure IEvmWalletData where
  connectedWalletKey : Option String
  web3 : Option Nat
  ethereum : Option Nat
  accountAddress : Option String
deriving DecidableEq, Repr

/-- The two localStorage entries the controller uses:
CachedEthereumProviderStorageKey and WalletConnectDataStorageKey
(src/package/EvmWalletController.ts lines 17 and 23). -/
structure Storage where
  cachedEthereumProvider : Option String
  walletconnectData : Option String
deriving DecidableEq, Repr

/-- The TEvmWalletEvents emissions together with the payloads the code
passes to callEvent. Payloads read from state slots keep Option. -/
inductive WEvent where
  | walletConnected (account : String) (walletKey : String)
  | walletDisconnected
  | accountChanged (account : String)
  | balanceUpdated (balance : Option Rat)
  | networkChanged (chain : Option Int)
  | controllerInitialized
deriving DecidableEq, Repr

/-- The whole controller as visible to the claims: the two observable
container slots, the two storage keys, the networks list, whether wallet
subscriptions are registered, and the debug configuration (whether the
debug mode flag is on and whether debug and error callbacks were given). -/
structure Ctl where
  state : IEvmWalletState
  data : IEvmWalletData
  storage : Storage
  networksList : List (Nat × TNetworkInfo)
  subscriptionsActive : Bool
  debugMode : Bool
  hasDebugFunction : Bool
  hasErrorFunction : Bool
  modalKey : Option String
deriving DecidableEq, Repr

/-- An emitted event together with the state and data snapshot that a
synchronously invoked listener observes at emission time. -/
structure EventObs where
  event : WEvent
  state : IEvmWalletState
  data : IEvmWalletData
deriving DecidableEq, Repr

/-- The constructor state passed to super: connected false and loading
true, with an empty data slot (src/package/EvmWalletController.ts line 127). -/
def initialState : IEvmWalletState :=
  { connected := false, loading := true, balance := none, accountChain := none,
    accountChainValid := none, balanceUpdating := none }

/-- The constructor data slot: empty. -/
def emptyData : IEvmWalletData :=
  { connectedWalletKey := none, web3 := none, ethereum := none, accountAddress := none }

/-- The toLowerCase conversion, character by character. -/
def toLowerStr (s : String) : String := String.mk (s.toList.map Char.toLower)

/-- A freshly constructed controller: constructor state and data, empty
storage, the default networks list, no subscriptions, debug off. -/
def freshCtl : Ctl :=
  { state := initialState, data := emptyData,
    storage := { cachedEthereumProvider := none, walletconnectData := none },
    networksList := defaultNetworksList, subscriptionsActive := false,
    debugMode := false, hasDebugFunction := false, hasErrorFunction := false,
    modalKey := none }

/-- disconnectWallet (src/package/EvmWalletController.ts lines 368-383):
if the connected wallet key lower-cases to walletconnect, remove the
WalletConnect session data key; always remove the cached provider key;
clear all wallet subscriptions; resetData; resetState excluding loading
(the state returns to the constructor values except that loading keeps
its current value); then emit walletDisconnected. -/
def disconnectWallet (c : Ctl) : Ctl × List EventObs :=
  let storage1 :=
    if c.data.connectedWalletKey.map toLowerStr = some "walletconnect" then
      { c.storage with walletconnectData := none }
    else c.storage
  let storage2 := { storage1 with cachedEthereumProvider := none }
  let c1 : Ctl :=
    { c with
        storage := storage2, subscriptionsActive := false,
        data := emptyData,
        state := { initialState with loading := c.state.loading } }
  (c1, [{ event := WEvent.walletDisconnected, state := c1.state, data := c1.data }])

/-- Conversion factor between wei and the 18-decimal display unit. -/
def weiPerEth : Rat := 1000000000000000000

/-- Web3.utils.fromWei on a wei amount (wei amounts are modelled by Rat). -/
def fromWei (wei : Rat) : Rat := wei / weiPerEth

/-- Web3.utils.toWei on a display-unit amount. -/
def toWei (amount : Rat) : Rat := amount * weiPerEth

deriving instance DecidableEq for Except

/-- How one Promise.race of a network getBalance call against the
staleness-guard timer settles: either the network call settles first
(resolving with a wei amount or rejecting with an error), or the guard
timer fires first (the guard itself always resolves). -/
inductive RaceOutcome where
  | callWins (result : Except String Rat)
  | timerWins
deriving DecidableEq, Repr

/-- The network behaviour getAccountBalance encounters: the outcome of
the primary race against the bound client and of the fallback race
against the disposable direct-RPC client. -/
structure BalanceEnv where
  primary : RaceOutcome
  fallback : RaceOutcome
deriving DecidableEq, Repr

/-- The value the getRacePromise timer resolves with
(src/package/EvmWalletController.ts lines 451-463): it snapshots
state.accountChain as targetChain at creation and, when the timer fires,
resolves with toWei of the current balance if the chain is still the
target, else with zero. In this sequential model no interleaving occurs
between creation and firing, so both reads see the same controller. -/
def racePromiseValue (targetChain : Option Int) (c : Ctl) : Rat :=
  if c.state.accountChain = targetChain then toWei (c.state.balance.getD 0) else 0

/-- getAccountBalance (src/package/EvmWalletController.ts lines 446-490).
Returns zero immediately when the web3 client, the chain or the account
is absent (a falsy account includes the empty string). Otherwise races
the bound client getBalance against a 3 second guard inside try/catch,
so a primary rejection degrades to the zero sentinel. If the raw result
is the zero sentinel and the networks list has an rpc entry for the
chain, races a direct-RPC getBalance against a 5 second guard; this
second race is NOT wrapped in try/catch, so a fallback rejection
propagates out of the method (hence the Except return type). The final
raw wei amount is converted with fromWei. -/
def getAccountBalance (env : BalanceEnv) (c : Ctl) (account : Option String)
    (chain : Option Nat) : Except String Rat :=
  match c.data.web3, chain, account with
  | some _, some ch, some acct =>
    if acct = "" then Except.ok (0 : Rat)
    else
      let targetChain := c.state.accountChain
      let rawBalance : Rat :=
        match env.primary with
        | RaceOutcome.callWins (Except.ok v) => v
        | RaceOutcome.callWins (Except.error _) => 0
        | RaceOutcome.timerWins => racePromiseValue targetChain c
      if rawBalance = 0 then
        match (getNetworksValue NetworkField.rpc c.networksList).lookup ch with
        | none => Except.ok (fromWei rawBalance)
        | some _ =>
          match env.fallback with
          | RaceOutcome.callWins (Except.ok v) => Except.ok (fromWei v)
          | RaceOutcome.callWins (Except.error e) => Except.error e
          | RaceOutcome.timerWins => Except.ok (fromWei (racePromiseValue targetChain c))
      else Except.ok (fromWei rawBalance)
  | _, _, _ => Except.ok (0 : Rat)

/-- Outcomes of the awaited calls connectWallet makes after binding the
provider: how the subscription setup settles, how the account
resolution settles (requestConnectOrGetAccounts runs two provider races
internally and either resolves with a list of accounts or rejects, which
the catch on line 320 rethrows as a wallet initialization failure), and
how web3.eth.getChainId settles. The balance retrieval is the modelled
getAccountBalance, driven by a separate BalanceEnv. -/
structure ConnectOracle where
  subscribe : Except String Unit
  accounts : Except String (List String)
  chainId : Except String Nat
deriving DecidableEq, Repr

/-- The outcome of a connectWallet call: the returned boolean, the final
controller, the emitted events with their listener-visible snapshots,
and how many times the diagnostic error callback ran. -/
structure ConnectResult where
  result : Bool
  ctl : Ctl
  events : List EventObs
  errorCalls : Nat
deriving DecidableEq, Repr

/-- The catch block of connectWallet (src/package/EvmWalletController.ts
lines 354-360): when debug mode is on, invoke the error callback if one
is configured; then disconnectWallet; then return false. -/
def connectFail (c : Ctl) : ConnectResult :=
  let errs := if c.debugMode && c.hasErrorFunction then 1 else 0
  let r := disconnectWallet c
  { result := false, ctl := r.1, events := r.2, errorCalls := errs }

/-- connectWallet (src/package/EvmWalletController.ts lines 304-361).
A falsy provider argument logs a diagnostic, removes the cached provider
storage key and returns false without touching state or data. Otherwise
the provider, a web3 client derived from it and the wallet key are bound
into the data slot; then, inside try: subscriptions are created, the
account list is resolved (an empty list throws), the wallet key is
persisted, the chain id is resolved and pinned to -1 when falsy or not in
the networks list, the balance is resolved via getAccountBalance, the
state is published with connected true, and networkChanged,
balanceUpdated, walletConnected are emitted before accountAddress is
written to data, after which accountChanged is emitted. Any throw inside
the try lands in connectFail. -/
def connectWallet (ethereum : Option Nat) (walletKey : String) (o : ConnectOracle)
    (benv : BalanceEnv) (c : Ctl) : ConnectResult :=
  match ethereum with
  | none =>
    { result := false,
      ctl := { c with storage := { c.storage with cachedEthereumProvider := none } },
      events := [],
      errorCalls := if c.debugMode && c.hasErrorFunction then 1 else 0 }
  | some eth =>
    let c := { c with
        data := { c.data with
            ethereum := some eth, web3 := some eth,
            connectedWalletKey := some walletKey } }
    match o.subscribe with
    | Except.error _ => connectFail c
    | Except.ok _ =>
      let c := { c with subscriptionsActive := true }
      match o.accounts with
      | Except.error _ => connectFail c
      | Except.ok accounts =>
        if accounts = [] then connectFail c
        else
          let c := { c with
              storage := { c.storage with cachedEthereumProvider := some walletKey } }
          match o.chainId with
          | Except.error _ => connectFail c
          | Except.ok accountChain =>
            let correctAccountChain : Int :=
              if accountChain ≠ 0 ∧ (c.networksList.lookup accountChain).isSome then
                (accountChain : Int)
              else -1
            match getAccountBalance benv c accounts.head? (some accountChain) with
            | Except.error _ => connectFail c
            | Except.ok accountBalance =>
              let c := { c with
                  state := { c.state with
                      accountChain := some correctAccountChain,
                      accountChainValid := some (decide (correctAccountChain ≥ 0)),
                      connected := true,
                      balance := some accountBalance } }
              let ev1 : EventObs :=
                { event := WEvent.networkChanged c.state.accountChain,
                  state := c.state, data := c.data }
              let ev2 : EventObs :=
                { event := WEvent.balanceUpdated c.state.balance,
                  state := c.state, data := c.data }
              let ev3 : EventObs :=
                { event := WEvent.walletConnected (accounts.headD "") walletKey,
                  state := c.state, data := c.data }
              let c2 := { c with data := { c.data with accountAddress := accounts.head? } }
              let ev4 : EventObs :=
                { event := WEvent.accountChanged (accounts.headD ""),
                  state := c2.state, data := c2.data }
              { result := true, ctl := c2, events := [ev1, ev2, ev3, ev4], errorCalls := 0 }

/-- A controller whose data slot holds a web3 client, as getAccountBalance
requires before doing network work. -/
def cWeb3 : Ctl := { freshCtl with data := { emptyData with web3 := some 7 } }

/-- C5: evaluation at the failing input. The primary race rejects (caught,
degrading to the zero sentinel), chain 1 has an rpc URL configured in the
default networks list, so the direct-RPC fallback runs; the fallback call
rejects before the 5 second guard fires and the rejection propagates out
of getAccountBalance instead of degrading: the method does not resolve to
a BigNumber. -/
theorem getAccountBalance_fallback_rejection_propagates :
    getAccountBalance
        { primary := RaceOutcome.callWins (Except.error "network error"),
          fallback := RaceOutcome.callWins (Except.error "network error") }
        cWeb3 (some "0xABC") (some 1) = Except.error "network error" := by
  rfl

/-- C10: connectWallet with a falsy provider argument returns false and
removes the cached-provider storage key, while leaving the state slot,
the data slot, the WalletConnect storage entry and the subscriptions
untouched and emitting no event at all (in particular no
walletDisconnected, since the disconnect path is not taken). -/
theorem connectWallet_falsy_provider_frame (walletKey : String) (o : ConnectOracle)
    (benv : BalanceEnv) (c : Ctl) :
    (connectWallet none walletKey o benv c).result = false ∧
      (connectWallet none walletKey o benv c).ctl.storage.cachedEthereumProvider = none ∧
      (connectWallet none walletKey o benv c).ctl.state = c.state ∧
      (connectWallet none walletKey o benv c).ctl.data = c.data ∧
      (connectWallet none walletKey o benv c).ctl.storage.walletconnectData =
        c.storage.walletconnectData ∧
      (connectWallet none walletKey o benv c).ctl.subscriptionsActive =
        c.subscriptionsActive ∧
      (connectWallet none walletKey o benv c).events = [] :=
  ⟨rfl, rfl, rfl, rfl, rfl, rfl, rfl⟩

/-- Every branch of connectWallet with a truthy provider either returns
true or lands in the catch block, and the catch never changes the debug
configuration recorded on the controller. -/
theorem connectWallet_split (eth : Nat) (walletKey : String) (o : ConnectOracle)
    (benv : BalanceEnv) (c : Ctl) :
    (connectWallet (some eth) walletKey o benv c).result = true ∨
      ∃ c', connectWallet (some eth) walletKey o benv c = connectFail c' ∧
        c'.debugMode = c.debugMode ∧ c'.hasErrorFunction = c.hasErrorFunction := by
  unfold connectWallet
  dsimp only
  split
  · exact Or.inr ⟨_, rfl, rfl, rfl⟩
  · split
    · exact Or.inr ⟨_, rfl, rfl, rfl⟩
    · split
      · exact Or.inr ⟨_, rfl, rfl, rfl⟩
      · split
        · exact Or.inr ⟨_, rfl, rfl, rfl⟩
        · split
          · exact Or.inr ⟨_, rfl, rfl, rfl⟩
          · exact Or.inl rfl

/-- The catch block always ends fully disconnected: result false, state
not connected, data slot empty, subscriptions cleared, cached provider
key removed, exactly one walletDisconnected emission, and the error
callback invoked once when debug mode is on and a callback is set. -/
theorem connectFail_all_or_nothing (c : Ctl) :
    (connectFail c).result = false ∧
      (connectFail c).ctl.state.connected = false ∧
      (connectFail c).ctl.data = emptyData ∧
      (connectFail c).ctl.subscriptionsActive = false ∧
      (connectFail c).ctl.storage.cachedEthereumProvider = none ∧
      (connectFail c).events.map EventObs.event = [WEvent.walletDisconnected] ∧
      (c.debugMode = true → c.hasErrorFunction = true → (connectFail c).errorCalls = 1) := by
  refine ⟨rfl, rfl, rfl, rfl, rfl, rfl, ?_⟩
  intro h1 h2
  simp [connectFail, h1, h2]

/-- C2: for every failure raised inside connectWallet after the provider,
web3 client and wallet key have been bound (any run that returns false),
the post-call state has connected false, the data slot fully cleared,
subscriptions torn down and the cached key removed, exactly one
walletDisconnected emission happens (the full disconnect), and the
diagnostic error callback runs once when debug mode and an error
callback are configured: no partially connected state is left published. -/
theorem connectWallet_failure_no_partial_connection (eth : Nat) (walletKey : String)
    (o : ConnectOracle) (benv : BalanceEnv) (c : Ctl)
    (h : (connectWallet (some eth) walletKey o benv c).result = false) :
    (connectWallet (some eth) walletKey o benv c).ctl.state.connected = false ∧
      (connectWallet (some eth) walletKey o benv c).ctl.data = emptyData ∧
      (connectWallet (some eth) walletKey o benv c).ctl.subscriptionsActive = false ∧
      (connectWallet (some eth) walletKey o benv c).ctl.storage.cachedEthereumProvider = none ∧
      (connectWallet (some eth) walletKey o benv c).events.map EventObs.event =
        [WEvent.walletDisconnected] ∧
      (c.debugMode = true → c.hasErrorFunction = true →
        (connectWallet (some eth) walletKey o benv c).errorCalls = 1) := by
  rcases connectWallet_split eth walletKey o benv c with htrue | ⟨c', hc', hdbg, herr⟩
  · rw [htrue] at h
    cases h
  · rw [hc']
    have hs := connectFail_all_or_nothing c'
    refine ⟨hs.2.1, hs.2.2.1, hs.2.2.2.1, hs.2.2.2.2.1, hs.2.2.2.2.2.1, ?_⟩
    intro h1 h2
    exact hs.2.2.2.2.2.2 (hdbg.trans h1) (herr.trans h2)

/-- An oracle whose account resolution yields the empty list, the
zero-accounts failure of connectWallet step 4. -/
def oFailAccounts : ConnectOracle :=
  { subscribe := Except.ok (), accounts := Except.ok [], chainId := Except.ok 1 }

/-- A benign network environment for balance retrieval. -/
def bGood : BalanceEnv :=
  { primary := RaceOutcome.callWins (Except.ok 5), fallback := RaceOutcome.timerWins }

/-- A fresh controller with debug mode on and an error callback set. -/
def cDbg : Ctl := { freshCtl with debugMode := true, hasErrorFunction := true }

/-- Witness for C2: a zero-accounts failure on a debug-enabled fresh
controller returns false with everything cleared and one error callback. -/
theorem connectWallet_failure_no_partial_connection_witness :
    (connectWallet (some 7) "MetaMask" oFailAccounts bGood cDbg).ctl.state.connected = false ∧
      (connectWallet (some 7) "MetaMask" oFailAccounts bGood cDbg).ctl.data = emptyData ∧
      (connectWallet (some 7) "MetaMask" oFailAccounts bGood cDbg).ctl.subscriptionsActive = false ∧
      (connectWallet (some 7) "MetaMask" oFailAccounts bGood cDbg).ctl.storage.cachedEthereumProvider = none ∧
      (connectWallet (some 7) "MetaMask" oFailAccounts bGood cDbg).events.map EventObs.event =
        [WEvent.walletDisconnected] ∧
      (cDbg.debugMode = true → cDbg.hasErrorFunction = true →
        (connectWallet (some 7) "MetaMask" oFailAccounts bGood cDbg).errorCalls = 1) :=
  connectWallet_failure_no_partial_connection 7 "MetaMask" oFailAccounts bGood cDbg (by decide)

/-- The spec invariant: connected is true exactly when the provider
handle, the web3 client, the account address and the wallet key are all
present in the data slot. -/
def connDataInvB (s : IEvmWalletState) (d : IEvmWalletData) : Bool :=
  s.connected ==
    (d.ethereum.isSome && d.web3.isSome && d.accountAddress.isSome &&
      d.connectedWalletKey.isSome)

/-- An oracle for a successful connection: one account on chain 1. -/
def oGood : ConnectOracle :=
  { subscribe := Except.ok (), accounts := Except.ok ["0xABC"], chainId := Except.ok 1 }

/-- A successful connectWallet run from a fresh controller. -/
def c4run : ConnectResult := connectWallet (some 7) "MetaMask" oGood bGood freshCtl

/-- Placeholder observation used as the headD default. -/
def dummyObs : EventObs :=
  { event := WEvent.walletDisconnected, state := initialState, data := emptyData }

/-- C4 counterexample: during the success transition of connectWallet the
first three emissions (networkChanged, balanceUpdated, walletConnected)
let listeners observe connected true while accountAddress is still
absent, so the claimed equivalence fails in a listener-observed state;
only the final accountChanged emission sees it restored. -/
theorem connDataInv_violated_mid_transition :
    c4run.result = true ∧
      (c4run.events.map EventObs.event).headD WEvent.walletDisconnected =
        WEvent.networkChanged (some 1) ∧
      (c4run.events.headD dummyObs).state.connected = true ∧
      (c4run.events.headD dummyObs).data.accountAddress = none ∧
      c4run.events.map (fun e => connDataInvB e.state e.data) = [false, false, false, true] := by
  refine ⟨rfl, rfl, rfl, rfl, ?_⟩
  decide

/-- C4 amended: the equivalence between connected and the presence of the
provider, web3 client, account address and wallet key holds at operation
boundaries: connectWallet preserves it from call to return (for any
provider argument and any network behaviour) and disconnectWallet
establishes it unconditionally; during the success transition of
connectWallet it is briefly violated for listeners, as the
counterexample shows. -/
theorem connDataInv_at_operation_boundaries :
    (∀ eth walletKey o benv c, connDataInvB c.state c.data = true →
      connDataInvB (connectWallet eth walletKey o benv c).ctl.state
        (connectWallet eth walletKey o benv c).ctl.data = true) ∧
    (∀ c, connDataInvB (disconnectWallet c).1.state (disconnectWallet c).1.data = true) := by
  constructor
  · intro eth walletKey o benv c hinv
    match eth with
    | none => exact hinv
    | some eth =>
      unfold connectWallet
      dsimp only
      split
      · simp [connectFail, disconnectWallet, connDataInvB, initialState, emptyData]
      · split
        · simp [connectFail, disconnectWallet, connDataInvB, initialState, emptyData]
        · rename_i accounts heq
          split
          · simp [connectFail, disconnectWallet, connDataInvB, initialState, emptyData]
          · rename_i hne
            split
            · simp [connectFail, disconnectWallet, connDataInvB, initialState, emptyData]
            · split
              · simp [connectFail, disconnectWallet, connDataInvB, initialState, emptyData]
              · cases accounts with
                | nil => exact absurd rfl hne
                | cons a t => simp [connDataInvB]
  · intro c
    simp [disconnectWallet, connDataInvB, initialState, emptyData]

/-- Witness for C4 amended: applied to a fresh controller, on which the
invariant already holds. -/
theorem connDataInv_at_operation_boundaries_witness :
    connDataInvB (connectWallet (some 7) "MetaMask" oGood bGood freshCtl).ctl.state
      (connectWallet (some 7) "MetaMask" oGood bGood freshCtl).ctl.data = true :=
  connDataInv_at_operation_boundaries.1 (some 7) "MetaMask" oGood bGood freshCtl (by decide)

/-- Value of a hexadecimal digit character, none for any other character. -/
def hexDigitValue (ch : Char) : Option Nat :=
  if '0' ≤ ch ∧ ch ≤ '9' then some (ch.toNat - '0'.toNat)
  else if 'a' ≤ ch ∧ ch ≤ 'f' then some (ch.toNat - 'a'.toNat + 10)
  else if 'A' ≤ ch ∧ ch ≤ 'F' then some (ch.toNat - 'A'.toNat + 10)
  else none

/-- Accumulate hexadecimal digits, stopping at the first invalid
character, as Number.parseInt with radix 16 does. -/
def parseHexAux : List Char → Nat → Nat
  | [], acc => acc
  | ch :: rest, acc =>
    match hexDigitValue ch with
    | some d => parseHexAux rest (acc * 16 + d)
    | none => acc

/-- Number.parseInt with radix 16: an optional leading 0x or 0X is
skipped, then the longest run of hexadecimal digits is parsed; none
models the NaN result when no digit is found. Leading whitespace and
sign handling of the real parseInt are not exercised by chain ids. -/
def parseIntRadix16 (s : String) : Option Nat :=
  let body :=
    match s.toList with
    | '0' :: 'x' :: rest => rest
    | '0' :: 'X' :: rest => rest
    | cs => cs
  match body with
  | [] => none
  | ch :: _ =>
    match hexDigitValue ch with
    | none => none
    | some _ => some (parseHexAux body 0)

/-- Value of a decimal digit character, none for any other character. -/
def decDigitValue (ch : Char) : Option Nat :=
  if '0' ≤ ch ∧ ch ≤ '9' then some (ch.toNat - '0'.toNat) else none

/-- Accumulate decimal digits; any non-digit character makes the whole
conversion fail, as the strict Number conversion does. -/
def parseDecAux : List Char → Nat → Option Nat
  | [], acc => some acc
  | ch :: rest, acc =>
    match decDigitValue ch with
    | some d => parseDecAux rest (acc * 10 + d)
    | none => none

/-- The JavaScript Number conversion on the strings a chainChanged event
carries: the empty string converts to 0, a digit string to its value,
anything else to NaN (modelled by none). Fractional, signed and
exponent forms do not occur as chain ids and are not modelled. -/
def numberOfString (s : String) : Option Nat :=
  match s.toList with
  | [] => some 0
  | cs => parseDecAux cs 0

/-- The chain normalization of walletChainSubscription
(src/package/EvmWalletController.ts lines 569-571): when the second
character of the string form lower-cases to x the value is parsed as
hexadecimal, otherwise it is converted with Number. -/
def parseChainArg (s : String) : Option Nat :=
  if (s.toList.drop 1).headD ' ' = 'x' ∨ (s.toList.drop 1).headD ' ' = 'X' then
    parseIntRadix16 s
  else numberOfString s

/-- Result of the synchronous half of walletBalanceSubscription. -/
inductive BalancePhase1 where
  | skip
  | pending (changeForChain : Option Int) (c : Ctl)
deriving DecidableEq, Repr

/-- walletBalanceSubscription before its await
(src/package/EvmWalletController.ts lines 616-625): a truthy
balanceUpdating flag makes the handler return at once; otherwise the
flag is set and the chain the recompute is for is snapshotted before
getAccountBalance is awaited. -/
def walletBalanceSubscriptionStart (c : Ctl) : BalancePhase1 :=
  if c.state.balanceUpdating = some true then BalancePhase1.skip
  else
    let c := { c with state := { c.state with balanceUpdating := some true } }
    BalancePhase1.pending c.state.accountChain c

/-- walletBalanceSubscription after its await
(src/package/EvmWalletController.ts lines 627-638), applied to the
controller observed on resumption: if the connection dropped or the
active chain no longer equals the snapshot, only balanceUpdating is
cleared and nothing is published; otherwise balanceUpdated is emitted
(before the state write, so the listener snapshot precedes it) and the
balance is published with balanceUpdating cleared. -/
def walletBalanceSubscriptionFinish (changeForChain : Option Int) (accountBalance : Rat)
    (c : Ctl) : Ctl × List EventObs :=
  if c.state.connected = false ∨ changeForChain ≠ c.state.accountChain then
    ({ c with state := { c.state with balanceUpdating := some false } }, [])
  else
    let ev : EventObs :=
      { event := WEvent.balanceUpdated (some accountBalance), state := c.state, data := c.data }
    let c := { c with
        state := { c.state with balance := some accountBalance, balanceUpdating := some false } }
    (c, [ev])

/-- Result of the synchronous half of walletAccountsSubscription. -/
inductive AccountsPhase1 where
  | noop
  | disconnected (c : Ctl) (events : List EventObs)
  | pending (account : String) (changeForChain : Option Int) (c : Ctl)
deriving DecidableEq, Repr

/-- walletAccountsSubscription before its await
(src/package/EvmWalletController.ts lines 531-547): a report matching
the current address or arriving while not connected is ignored; a falsy
first account (absent or empty string) disconnects; otherwise the chain
the recompute is for is snapshotted before getAccountBalance is
awaited. -/
def walletAccountsSubscriptionStart (accounts : List String) (c : Ctl) : AccountsPhase1 :=
  if accounts.head? = c.data.accountAddress ∨ c.state.connected = false then
    AccountsPhase1.noop
  else
    let changeForChain := c.state.accountChain
    match accounts.head? with
    | none =>
      let r := disconnectWallet c
      AccountsPhase1.disconnected r.1 r.2
    | some account =>
      if account = "" then
        let r := disconnectWallet c
        AccountsPhase1.disconnected r.1 r.2
      else AccountsPhase1.pending account changeForChain c

/-- walletAccountsSubscription after its await
(src/package/EvmWalletController.ts lines 549-555), applied to the
controller observed on resumption: if the connection dropped or the
active chain no longer equals the snapshot, nothing at all is committed;
otherwise the balance and the new address are published and
balanceUpdated then accountChanged are emitted. -/
def walletAccountsSubscriptionFinish (account : String) (changeForChain : Option Int)
    (accountBalance : Rat) (c : Ctl) : Ctl × List EventObs :=
  if c.state.connected = false ∨ changeForChain ≠ c.state.accountChain then (c, [])
  else
    let c := { c with state := { c.state with balance := some accountBalance } }
    let c := { c with data := { c.data with accountAddress := some account } }
    let ev1 : EventObs :=
      { event := WEvent.balanceUpdated c.state.balance, state := c.state, data := c.data }
    let ev2 : EventObs :=
      { event := WEvent.accountChanged account, state := c.state, data := c.data }
    (c, [ev1, ev2])

/-- Result of the synchronous half of walletChainSubscription. -/
inductive ChainPhase1 where
  | noop
  | committed (c : Ctl) (events : List EventObs)
  | pending (correctChain : Nat) (c : Ctl)
deriving DecidableEq, Repr

/-- walletChainSubscription before its await
(src/package/EvmWalletController.ts lines 566-594): ignored while not
connected; the raw chain is normalized from hex or decimal form, a zero
or unparseable id is ignored with a diagnostic; a chain missing from the
networks list synchronously publishes balance 0, accountChain -1 and
accountChainValid false and emits networkChanged then balanceUpdated; a
supported chain suspends into the balance recompute. -/
def walletChainSubscriptionStart (chainArg : String) (c : Ctl) : ChainPhase1 :=
  if c.state.connected = false then ChainPhase1.noop
  else
    match parseChainArg chainArg with
    | none => ChainPhase1.noop
    | some correctChain =>
      if correctChain = 0 then ChainPhase1.noop
      else if (c.networksList.lookup correctChain).isSome = false then
        let c1 := { c with
            state := { c.state with
                balance := some 0, accountChain := some (-1),
                accountChainValid := some false } }
        let ev1 : EventObs :=
          { event := WEvent.networkChanged c1.state.accountChain,
            state := c1.state, data := c1.data }
        let ev2 : EventObs :=
          { event := WEvent.balanceUpdated c1.state.balance,
            state := c1.state, data := c1.data }
        ChainPhase1.committed c1 [ev1, ev2]
      else ChainPhase1.pending correctChain c

/-- walletChainSubscription after its await
(src/package/EvmWalletController.ts lines 596-605), applied to the
controller observed on resumption: only the connected flag is
re-checked; if still connected the new chain, its validity and the
recomputed balance are published and networkChanged then balanceUpdated
are emitted, with no comparison against any chain snapshot. -/
def walletChainSubscriptionFinish (correctChain : Nat) (accountBalance : Rat)
    (c : Ctl) : Ctl × List EventObs :=
  if c.state.connected = false then (c, [])
  else
    let c := { c with
        state := { c.state with
            accountChain := some (correctChain : Int),
            accountChainValid := some (decide ((correctChain : Int) ≥ 0)),
            balance := some accountBalance } }
    let ev1 : EventObs :=
      { event := WEvent.networkChanged c.state.accountChain,
        state := c.state, data := c.data }
    let ev2 : EventObs :=
      { event := WEvent.balanceUpdated c.state.balance,
        state := c.state, data := c.data }
    (c, [ev1, ev2])

/-- A connected controller: MetaMask bound, account 0xABC, active chain 1
with balance 1, subscriptions live. -/
def cConn : Ctl :=
  { freshCtl with
      state := { connected := true, loading := false, balance := some 1,
                 accountChain := some 1, accountChainValid := some true,
                 balanceUpdating := some false },
      data := { connectedWalletKey := some "MetaMask", web3 := some 7, ethereum := some 7,
                accountAddress := some "0xABC" },
      storage := { cachedEthereumProvider := some "MetaMask", walletconnectData := none },
      subscriptionsActive := true }

/-- The controller cConn as observed after an interleaved operation
completed during the suspension and moved the active chain to 250. -/
def cMid : Ctl :=
  { cConn with state := { cConn.state with accountChain := some 250, balance := some 3 } }

/-- C1 counterexample: a chain-change handler started while the active
chain was 1, suspends to recompute the balance for chain 56; while it is
suspended the active chain moves to 250; on resumption the handler still
commits chain 56 with its balance and fires networkChanged and
balanceUpdated, because walletChainSubscription re-checks only the
connected flag and never compares any chain snapshot. -/
theorem walletChainSubscription_stale_commit :
    walletChainSubscriptionStart "56" cConn = ChainPhase1.pending 56 cConn ∧
      cConn.state.accountChain = some 1 ∧
      cMid.state.accountChain = some 250 ∧
      (walletChainSubscriptionFinish 56 5 cMid).2.map EventObs.event =
        [WEvent.networkChanged (some 56), WEvent.balanceUpdated (some 5)] ∧
      (walletChainSubscriptionFinish 56 5 cMid).1.state.balance = some 5 ∧
      (walletChainSubscriptionFinish 56 5 cMid).1.state.accountChain = some 56 := by
  decide

/-- C1 amended: walletAccountsSubscription and walletBalanceSubscription
each re-validate the connected flag and the chain snapshot taken at
their start immediately before publishing, committing nothing (no
balance write, no event) when either changed during the recompute;
walletChainSubscription re-validates only the connected flag, so it
commits nothing after a disconnect but does not detect a concurrent
chain change. -/
theorem handlers_staleness_guards :
    (∀ account changeForChain accountBalance c,
        (c.state.connected = false ∨ changeForChain ≠ c.state.accountChain) →
        walletAccountsSubscriptionFinish account changeForChain accountBalance c = (c, [])) ∧
      (∀ changeForChain accountBalance c,
        (c.state.connected = false ∨ changeForChain ≠ c.state.accountChain) →
        (walletBalanceSubscriptionFinish changeForChain accountBalance c).1.state.balance =
            c.state.balance ∧
          (walletBalanceSubscriptionFinish changeForChain accountBalance c).2 = []) ∧
      (∀ correctChain accountBalance c, c.state.connected = false →
        walletChainSubscriptionFinish correctChain accountBalance c = (c, [])) := by
  refine ⟨?_, ?_, ?_⟩
  · intro account changeForChain accountBalance c h
    unfold walletAccountsSubscriptionFinish
    rw [if_pos h]
  · intro changeForChain accountBalance c h
    unfold walletBalanceSubscriptionFinish
    rw [if_pos h]
    exact ⟨rfl, rfl⟩
  · intro correctChain accountBalance c h
    unfold walletChainSubscriptionFinish
    rw [if_pos h]

/-- Witness for C1 amended: the accounts and balance guards discard on a
chain moved from 1 to 250, and the chain guard discards on a fresh
(disconnected) controller. -/
theorem handlers_staleness_guards_witness :
    walletAccountsSubscriptionFinish "0xDEF" (some 1) 5 cMid = (cMid, []) ∧
      ((walletBalanceSubscriptionFinish (some 1) 5 cMid).1.state.balance =
          cMid.state.balance ∧
        (walletBalanceSubscriptionFinish (some 1) 5 cMid).2 = []) ∧
      walletChainSubscriptionFinish 56 5 freshCtl = (freshCtl, []) :=
  ⟨handlers_staleness_guards.1 "0xDEF" (some 1) 5 cMid (by decide),
   handlers_staleness_guards.2.1 (some 1) 5 cMid (by decide),
   handlers_staleness_guards.2.2 56 5 freshCtl (by decide)⟩

/-- An injected root provider object as inspected by getInstalledWallets:
an opaque handle id, an optional multi-provider map from wallet name to
provider handle, and the identity flags the code reads. -/
structure Provider where
  id : Nat
  providerMap : Option (List (String × Nat))
  isMetaMask : Bool
  isCoinbaseWallet : Bool
  isCoinbaseBrowser : Bool
deriving DecidableEq, Repr

/-- getInstalledWallets (src/package/utils/get-installed-wallets.ts lines
9-26): a falsy provider yields the empty map; a providerMap is returned
verbatim; a MetaMask flag yields a single MetaMask entry; a Coinbase
flag yields a single CoinbaseWallet entry; otherwise the empty map. -/
def getInstalledWallets (provider : Option Provider) : List (String × Nat) :=
  match provider with
  | none => []
  | some p =>
    match p.providerMap with
    | some m => m
    | none =>
      if p.isMetaMask then [("MetaMask", p.id)]
      else if p.isCoinbaseWallet || p.isCoinbaseBrowser then [("CoinbaseWallet", p.id)]
      else []

/-- The opaque handle of a freshly constructed WalletConnect provider. -/
def walletConnectProviderId : Nat := 999

/-- The environment initController runs against: how the WalletConnect
handshake settles, what waitingEthereumPromise resolves with after its
bounded poll of the page (none after ten 100ms attempts without an
injected provider), and the oracles driving a subsequent connectWallet. -/
structure InitEnv where
  wcConnect : Except String Unit
  injectedProvider : Option Provider
  connectOracle : ConnectOracle
  balanceEnv : BalanceEnv
deriving DecidableEq, Repr

/-- The outcome of initController: whether the returned promise rejected
(propagating an error to the caller), the final controller and the
emissions in order. -/
structure InitResult where
  rejected : Bool
  ctl : Ctl
  events : List EventObs
deriving DecidableEq, Repr

/-- initController (src/package/EvmWalletController.ts lines 173-253).
Sets loading true, records the modal key and the debug configuration
(each only when truthy). With no cached provider key: loading false,
emit controllerInitialized. With a cached key lower-casing to
walletconnect: if the WalletConnect session data is absent, remove the
cached key and emit controllerInitialized WITHOUT touching loading (the
code has no setState on this branch); otherwise construct a bridge
provider, await its handshake (a rejection there propagates to the
caller uncaught), connect, then loading false and controllerInitialized.
With any other cached key: wait for the injected provider (absent gives
loading false plus controllerInitialized); enumerate installed wallets
and, when the cached key is not among them, set loading false and emit
controllerInitialized without removing the cached key (the code only
logs clearing cache); otherwise connect with the resolved handle, then
loading false and controllerInitialized. -/
def initController (modalKey : String) (debugMode : Bool) (hasDebugFn : Bool)
    (hasErrorFn : Bool) (env : InitEnv) (c : Ctl) : InitResult :=
  let c := { c with
      state := { c.state with loading := true },
      modalKey := some modalKey,
      debugMode := if debugMode then true else c.debugMode,
      hasDebugFunction := if hasDebugFn then true else c.hasDebugFunction,
      hasErrorFunction := if hasErrorFn then true else c.hasErrorFunction }
  match c.storage.cachedEthereumProvider with
  | none =>
    let c := { c with state := { c.state with loading := false } }
    { rejected := false, ctl := c,
      events := [{ event := WEvent.controllerInitialized, state := c.state, data := c.data }] }
  | some cachedProvider =>
    if toLowerStr cachedProvider = "walletconnect" then
      if c.storage.walletconnectData = none then
        let c := { c with storage := { c.storage with cachedEthereumProvider := none } }
        { rejected := false, ctl := c,
          events := [{ event := WEvent.controllerInitialized, state := c.state, data := c.data }] }
      else
        match env.wcConnect with
        | Except.error _ => { rejected := true, ctl := c, events := [] }
        | Except.ok _ =>
          let r := connectWallet (some walletConnectProviderId) cachedProvider
            env.connectOracle env.balanceEnv c
          let c := { r.ctl with state := { r.ctl.state with loading := false } }
          { rejected := false, ctl := c,
            events := r.events ++
              [{ event := WEvent.controllerInitialized, state := c.state, data := c.data }] }
    else
      match env.injectedProvider with
      | none =>
        let c := { c with state := { c.state with loading := false } }
        { rejected := false, ctl := c,
          events := [{ event := WEvent.controllerInitialized, state := c.state, data := c.data }] }
      | some p =>
        let wallets := getInstalledWallets (some p)
        match wallets.lookup cachedProvider with
        | none =>
          let c := { c with state := { c.state with loading := false } }
          { rejected := false, ctl := c,
            events := [{ event := WEvent.controllerInitialized, state := c.state, data := c.data }] }
        | some handle =>
          let r := connectWallet (some handle) cachedProvider
            env.connectOracle env.balanceEnv c
          let c := { r.ctl with state := { r.ctl.state with loading := false } }
          { rejected := false, ctl := c,
            events := r.events ++
              [{ event := WEvent.controllerInitialized, state := c.state, data := c.data }] }

/-- A fresh controller whose storage caches the WalletConnect key but
holds no WalletConnect session data. -/
def cWcStale : Ctl :=
  { freshCtl with
      storage := { cachedEthereumProvider := some "WalletConnect", walletconnectData := none } }

/-- An environment with no injected provider and benign oracles. -/
def envIdle : InitEnv :=
  { wcConnect := Except.ok (), injectedProvider := none,
    connectOracle := oGood, balanceEnv := bGood }

/-- C3: evaluation at the failing input. With a cached WalletConnect key
and missing session data, initController removes the cached key and
emits controllerInitialized exactly once without rejecting, but returns
with state.loading still true: the branch has no setState and the flag
set at entry is never cleared. -/
theorem initController_missing_session_leaves_loading :
    (initController "modal" false false false envIdle cWcStale).ctl.state.loading = true ∧
      (initController "modal" false false false envIdle cWcStale).events.map EventObs.event =
        [WEvent.controllerInitialized] ∧
      (initController "modal" false false false envIdle cWcStale).rejected = false ∧
      (initController "modal" false false false envIdle
          cWcStale).ctl.storage.cachedEthereumProvider = none := by
  decide

/-- A fresh controller whose storage caches the MetaMask key. -/
def cMMCached : Ctl :=
  { freshCtl with
      storage := { cachedEthereumProvider := some "MetaMask", walletconnectData := none } }

/-- An environment whose injected provider self-identifies only as
Coinbase Wallet, so the cached MetaMask key is not among the installed
wallets. -/
def envCoinbase : InitEnv :=
  { wcConnect := Except.ok (),
    injectedProvider := some
      { id := 5, providerMap := none, isMetaMask := false,
        isCoinbaseWallet := true, isCoinbaseBrowser := false },
    connectOracle := oGood, balanceEnv := bGood }

/-- C6: evaluation at the failing input. When the cached wallet key is
not among the enumerated installed wallets, initialization aborts
without a connection attempt, ends with loading false and one
controllerInitialized emission, but the cached provider key is still in
storage afterwards: the branch only logs clearing cache and never calls
removeItem. -/
theorem initController_uninstalled_wallet_keeps_cache :
    (initController "modal" false false false envCoinbase
          cMMCached).ctl.storage.cachedEthereumProvider = some "MetaMask" ∧
      (initController "modal" false false false envCoinbase cMMCached).ctl.state.loading = false ∧
      (initController "modal" false false false envCoinbase
          cMMCached).ctl.state.connected = false ∧
      (initController "modal" false false false envCoinbase cMMCached).events.map
          EventObs.event = [WEvent.controllerInitialized] ∧
      (initController "modal" false false false envCoinbase cMMCached).rejected = false := by
  decide

/-- What a registered listener does when invoked: return normally or
throw. -/
inductive ListenerBeh where
  | ok
  | throws
deriving DecidableEq, Repr

/-- A registered listener: an identity and its behaviour when invoked. -/
structure Listener where
  id : Nat
  beh : ListenerBeh
deriving DecidableEq, Repr

/-- The forEach loop of callEvent
(src/package/EvmWalletController.ts lines 720-722) over the listener
array of one event: listeners run synchronously in array order; forEach
has no exception handling, so a throwing listener ends the iteration and
the exception escapes. Returns the ids invoked, in order, and whether an
exception escaped. -/
def callEventRun : List Listener → List Nat × Bool
  | [] => ([], false)
  | l :: rest =>
    match l.beh with
    | ListenerBeh.throws => ([l.id], true)
    | ListenerBeh.ok =>
      let r := callEventRun rest
      (l.id :: r.1, r.2)

/-- callEvent on the registry slot of one event: an absent listener
array means nothing runs. -/
def callEvent (listeners : Option (List Listener)) : List Nat × Bool :=
  match listeners with
  | none => ([], false)
  | some ls => callEventRun ls

/-- C7 counterexample: with two listeners registered in order, the first
throwing and the second well behaved, callEvent invokes only the first:
the throwing listener prevents the subsequent listener from running and
the exception escapes to the emitter. -/
theorem callEvent_throwing_listener_blocks :
    callEvent (some [{ id := 0, beh := ListenerBeh.throws },
        { id := 1, beh := ListenerBeh.ok }]) = ([0], true) ∧
      ¬ (1 ∈ (callEvent (some [{ id := 0, beh := ListenerBeh.throws },
        { id := 1, beh := ListenerBeh.ok }])).1) := by
  decide

/-- C7 amended: callEvent synchronously invokes the registered listeners
in registration order, and when every listener returns normally all of
them run; but a throwing listener ends the loop at itself, so the
listeners registered after it do not run and the exception escapes. -/
theorem callEvent_order_and_throw :
    (∀ ls : List Listener, (∀ l ∈ ls, l.beh = ListenerBeh.ok) →
      callEventRun ls = (ls.map Listener.id, false)) ∧
      (∀ (i : Nat) (rest : List Listener),
        callEventRun ({ id := i, beh := ListenerBeh.throws } :: rest) = ([i], true)) := by
  constructor
  · intro ls h
    induction ls with
    | nil => rfl
    | cons l rest ih =>
      have hl : l.beh = ListenerBeh.ok := h l (List.mem_cons_self l rest)
      have hr := ih (fun x hx => h x (List.mem_cons_of_mem l hx))
      simp [callEventRun, hl, hr]
  · intro i rest
    rfl

/-- Witness for C7 amended: two well-behaved listeners both run in
order, and a throwing head runs alone. -/
theorem callEvent_order_and_throw_witness :
    callEventRun [{ id := 4, beh := ListenerBeh.ok }, { id := 9, beh := ListenerBeh.ok }] =
        ([4, 9], false) ∧
      callEventRun [{ id := 2, beh := ListenerBeh.throws }] = ([2], true) :=
  ⟨callEvent_order_and_throw.1
      [{ id := 4, beh := ListenerBeh.ok }, { id := 9, beh := ListenerBeh.ok }] (by decide),
    callEvent_order_and_throw.2 2 []⟩

/-- addEventListener on the listener array of one event
(src/package/EvmWalletController.ts lines 674-687), with listeners
modelled by their String(fn) source text, which is also what the code
compares. After the replay special cases (which only call callEvent and
never modify the array, so they are not modelled here), the code returns
early when some stored listener satisfies String(fn) === String(event) —
the event name, not the incoming listener — and otherwise appends the
listener. -/
def addEventListener (event : String) (listener : String) (ls : List String) : List String :=
  if (ls.find? (fun fn => fn = event)).isSome then ls
  else ls ++ [listener]

/-- C8: evaluation at the failing input. Registering the same listener
twice for balanceUpdated appends it twice: the dedup guard compares each
stored listener against the event name instead of the incoming listener,
so it never fires and the second registration adds a duplicate entry. -/
theorem addEventListener_duplicate_registration :
    addEventListener "balanceUpdated" "fn1"
        (addEventListener "balanceUpdated" "fn1" []) = ["fn1", "fn1"] ∧
      addEventListener "balanceUpdated" "fn1"
          (addEventListener "balanceUpdated" "fn1" []) ≠
        addEventListener "balanceUpdated" "fn1" [] := by
  decide
